import Mathlib

/-!
# VariantDemo.cpp: checked allocation and visitor dispatch

A shallow embedding of `src/VariantDemo.cpp`.

* Pointers are addresses (`Nat`), the null pointer is address `0`.
* The heap is the list of live blocks; a block records how many bytes it has and
  the `T` object stored at its start (`none` while the storage is uninitialised).
* `malloc` is the C library's allocator.  Its choice (no memory, or a fresh
  address) is a parameter of every definition that allocates, so statements
  quantify over every allocator behaviour.
* Undefined behaviour (reading or writing through a null, dangling or too small
  pointer, reading uninitialised storage) is the result `none`.
* `std::cout` is the text written so far.
* `Run.events` is ghost state: it records, in order, each call of the stored
  handler `f` and each entry of the `Error` overload, so that "invoked exactly
  once" can be stated.  Handlers cannot touch it.

The source spells the cast `reiterpret_cast`; it is read as `reinterpret_cast`.
`PtrVisitor` declares its member `f` as a reference and binds it to the
constructor's by-value parameter; the embedding identifies the visitor with the
handler it was built from (object lifetimes of temporaries are not modelled).
-/

namespace VariantDemo

/-- An address; `0` is the null pointer. -/
abbrev Ptr := Nat

/-- Source: `typedef std::string Error;` -/
abbrev Error := String

/-- What the program needs to know about the element type `T`: `sizeof(T)` and
how `operator<<` prints a value. -/
structure CType (α : Type) where
  sizeof : Nat
  print : α → String

/-- The type `int` on the usual platforms: four bytes, printed in decimal. -/
def cInt : CType Int := ⟨4, fun v => toString v⟩

/-- One live block of the heap. -/
structure Block (α : Type) where
  size : Nat
  val : Option α
deriving DecidableEq, Repr

/-- The live blocks, most recently allocated first. -/
abbrev Heap (α : Type) := List (Ptr × Block α)

/-- The live block at address `p`, if any. -/
def Heap.block {α : Type} : Heap α → Ptr → Option (Block α)
  | [], _ => none
  | (q, b) :: h, p => if q = p then some b else Heap.block h p

/-- Replace the contents of the first block at address `p`. -/
def Heap.write {α : Type} : Heap α → Ptr → α → Heap α
  | [], _, _ => []
  | (q, b) :: h, p, v =>
    if q = p then (q, ⟨b.size, some v⟩) :: h else (q, b) :: Heap.write h p v

/-- Reading a `T` through `p` (the expression `*p`): defined when `p` is not
null, addresses a live block of at least `sizeof(T)` bytes, and that block has
been initialised. -/
def Heap.load {α : Type} (T : CType α) (h : Heap α) (p : Ptr) : Option α :=
  if p = 0 then none
  else match Heap.block h p with
    | none => none
    | some b => if T.sizeof ≤ b.size then b.val else none

/-- Writing a `T` through `p` (the statement `*p = v`): defined when `p` is not
null and addresses a live block of at least `sizeof(T)` bytes. -/
def Heap.store {α : Type} (T : CType α) (h : Heap α) (p : Ptr) (v : α) : Option (Heap α) :=
  if p = 0 then none
  else match Heap.block h p with
    | none => none
    | some b => if T.sizeof ≤ b.size then some (Heap.write h p v) else none

/-- The allocator's choice for a request: `none` for "no memory", `some a` for
the address of the new block. -/
abbrev Allocator (α : Type) := Heap α → Nat → Option Ptr

/-- The C library's `malloc(size)`: either returns null and leaves the heap as
it is, or returns a non-null address that was not live and adds an uninitialised
block of `size` bytes there.  A choice that is null or already live is not an
allocation and counts as "no memory". -/
def malloc {α : Type} (A : Allocator α) (h : Heap α) (size : Nat) : Ptr × Heap α :=
  match A h size with
  | none => (0, h)
  | some a =>
    if a = 0 ∨ (Heap.block h a).isSome then (0, h)
    else (a, (a, ⟨size, none⟩) :: h)

/-- Source: `template<class T> using CheckedPtr=variant<Error, std::unique_ptr<T>>;` -/
inductive CheckedPtr where
  | error (err : Error)
  | uniquePtr (p : Ptr)
deriving DecidableEq, Repr

/-- Source: `checkedSafeMalloc<T>(size_t size)`.
```
T *ptr=reinterpret_cast<T*>(malloc(size));
if (!ptr) return CheckedPtr<T>(Error());
return CheckedPtr<T>(std::unique_ptr<T>(ptr));
```
-/
def checkedSafeMalloc {α : Type} (A : Allocator α) (size : Nat) (h : Heap α) :
    CheckedPtr × Heap α :=
  let r := malloc A h size
  if r.1 = 0 then (CheckedPtr.error "", r.2)
  else (CheckedPtr.uniquePtr r.1, r.2)

/-- The observable state: heap and the text written to `std::cout`. -/
structure World (α : Type) where
  heap : Heap α
  out : String
deriving DecidableEq, Repr

/-- Source: `std::function<void(std::unique_ptr<T> &)>`.  The handler receives the
owning pointer by reference, so it returns the pointer it leaves behind; `none`
is undefined behaviour inside the handler. -/
abbrev Handler (α : Type) := Ptr → World α → Option (Ptr × World α)

/-- Ghost record of what a dispatch entered. -/
inductive Event where
  | handler (p : Ptr)
  | failure (err : Error)
deriving DecidableEq, Repr

/-- Result of a dispatch: the ghost events, and the variant and world it leaves
(`none` when undefined behaviour was reached). -/
structure Run (α : Type) where
  events : List Event
  result : Option (CheckedPtr × World α)

/-- Source: `void PtrVisitor<T>::operator()(std::unique_ptr<T> &i) const`.
```
f(i);
std::cout << "validly allocated" << *i.get() << std::endl;
```
-/
def PtrVisitor.callUniquePtr {α : Type} (T : CType α) (f : Handler α) (i : Ptr)
    (w : World α) : Run α :=
  { events := [Event.handler i]
    result :=
      match f i w with
      | none => none
      | some (j, w1) =>
        match Heap.load T w1.heap j with
        | none => none
        | some v =>
          some (CheckedPtr.uniquePtr j,
            { w1 with out := w1.out ++ "validly allocated" ++ T.print v ++ "\n" }) }

/-- Source: `void PtrVisitor<T>::operator()(const Error &err) const`.
```
std::cout << "woops! Now handling error appropriately" << std::endl;
```
-/
def PtrVisitor.callError {α : Type} (err : Error) (w : World α) : Run α :=
  { events := [Event.failure err]
    result :=
      some (CheckedPtr.error err,
        { w with out := w.out ++ "woops! Now handling error appropriately" ++ "\n" }) }

/-- Source: `boost::apply_visitor(PtrVisitor<T>(f), p)`: calls the overload of
the alternative the variant holds. -/
def apply_visitor {α : Type} (T : CType α) (f : Handler α) (p : CheckedPtr)
    (w : World α) : Run α :=
  match p with
  | CheckedPtr.error err => PtrVisitor.callError err w
  | CheckedPtr.uniquePtr i => PtrVisitor.callUniquePtr T f i w

/-- The handler `[](std::unique_ptr<T> &uniq_p) { * uniq_p.get()=v; }`. -/
def assign {α : Type} (T : CType α) (v : α) : Handler α :=
  fun uniq_p w =>
    match Heap.store T w.heap uniq_p v with
    | none => none
    | some h => some (uniq_p, { w with heap := h })

/-- Source: `main`, up to the return of `apply_visitor`.
```
CheckedPtr<int> p = checkedSafeMalloc<int>(20);
boost::apply_visitor(PtrVisitor<int>([](std::unique_ptr<int> &uniq_p) {
    * uniq_p.get()=5; }), p);
```
-/
def main (A : Allocator Int) (w : World Int) : Run Int :=
  let r := checkedSafeMalloc A 20 w.heap
  apply_visitor cInt (assign cInt 5) r.1 { w with heap := r.2 }

/-! ## The allocator and the heap -/

/-- What `malloc` can do: return null and leave the heap alone, or return the
chosen non-null address, not live before, with one new block of `size`
uninitialised bytes in front of the old heap. -/
theorem malloc_null_or_fresh {α : Type} (A : Allocator α) (h : Heap α) (size : Nat) :
    ((malloc A h size).1 = 0 ∧ (malloc A h size).2 = h) ∨
    ((malloc A h size).1 ≠ 0 ∧ A h size = some (malloc A h size).1 ∧
      Heap.block h (malloc A h size).1 = none ∧
      (malloc A h size).2 = ((malloc A h size).1, ⟨size, none⟩) :: h) := by
  unfold malloc
  cases hA : A h size with
  | none => left; simp
  | some a =>
    by_cases hbad : a = 0 ∨ (Heap.block h a).isSome
    · left; simp [hbad]
    · right
      have h0 : a ≠ 0 := fun e => hbad (Or.inl e)
      have h1 : Heap.block h a = none := by
        cases hb : Heap.block h a with
        | none => rfl
        | some b => exact absurd (Or.inr (by simp [hb])) hbad
      simp [hbad, h0, h1]

/-- After a write the block at `p` keeps its size and holds the value. -/
theorem Heap.block_write {α : Type} (h : Heap α) (p : Ptr) (v : α) (b : Block α)
    (hb : Heap.block h p = some b) :
    Heap.block (Heap.write h p v) p = some ⟨b.size, some v⟩ := by
  induction h with
  | nil => simp [Heap.block] at hb
  | cons x h ih =>
    obtain ⟨q, c⟩ := x
    by_cases hq : q = p
    · simp only [Heap.block, hq, if_true] at hb
      cases hb
      simp [Heap.block, Heap.write, hq]
    · simp only [Heap.block, hq, if_false] at hb
      simp [Heap.block, Heap.write, hq, ih hb]

/-- A defined store is read back by a load through the same pointer. -/
theorem Heap.load_store {α : Type} (T : CType α) (h h1 : Heap α) (p : Ptr) (v : α)
    (hs : Heap.store T h p v = some h1) : Heap.load T h1 p = some v := by
  unfold Heap.store at hs
  by_cases hp : p = 0
  · simp [hp] at hs
  · cases hb : Heap.block h p with
    | none => simp [hp, hb] at hs
    | some b =>
      by_cases hsz : T.sizeof ≤ b.size
      · simp [hp, hb, hsz] at hs
        subst hs
        simp [Heap.load, hp, Heap.block_write h p v b hb, hsz]
      · simp [hp, hb, hsz] at hs

/-- A store is defined exactly on a non-null pointer to a live block with room
for a `T`. -/
theorem Heap.store_isSome {α : Type} (T : CType α) (h : Heap α) (p : Ptr) (v : α) :
    (Heap.store T h p v).isSome ↔
      p ≠ 0 ∧ ∃ b, Heap.block h p = some b ∧ T.sizeof ≤ b.size := by
  unfold Heap.store
  by_cases hp : p = 0
  · simp [hp]
  · cases hb : Heap.block h p with
    | none => simp [hp]
    | some b =>
      by_cases hsz : T.sizeof ≤ b.size
      · simp [hp, hsz]
      · simp [hp, hsz]

/-- The two outcomes of `checkedSafeMalloc`, read off the allocator's. -/
theorem checkedSafeMalloc_cases {α : Type} (A : Allocator α) (size : Nat) (h : Heap α) :
    ((malloc A h size).1 = 0 ∧ checkedSafeMalloc A size h = (CheckedPtr.error "", h)) ∨
    ((malloc A h size).1 ≠ 0 ∧ A h size = some (malloc A h size).1 ∧
      Heap.block h (malloc A h size).1 = none ∧
      checkedSafeMalloc A size h =
        (CheckedPtr.uniquePtr (malloc A h size).1,
          ((malloc A h size).1, ⟨size, none⟩) :: h)) := by
  rcases malloc_null_or_fresh A h size with ⟨h0, h1⟩ | ⟨h0, hA, hb, h1⟩
  · left
    refine ⟨h0, ?_⟩
    simp [checkedSafeMalloc, h0, h1]
  · right
    refine ⟨h0, hA, hb, ?_⟩
    simp only [checkedSafeMalloc, h0, if_false]
    rw [h1]

/-! ## Allocation results -/

/-- C1: `checkedSafeMalloc` is a total function (it has no way to raise) and its
result is one of the two variants: it is the `Error` variant exactly when
`malloc` returned null, the `unique_ptr` variant exactly when it did not, and a
`unique_ptr` variant owns exactly the pointer `malloc` returned. -/
theorem checkedSafeMalloc_returns_variant {α : Type} (A : Allocator α) (size : Nat)
    (h : Heap α) :
    ((∃ e, (checkedSafeMalloc A size h).1 = CheckedPtr.error e) ↔
        (malloc A h size).1 = 0) ∧
    ((∃ p, (checkedSafeMalloc A size h).1 = CheckedPtr.uniquePtr p) ↔
        (malloc A h size).1 ≠ 0) ∧
    (∀ p, (checkedSafeMalloc A size h).1 = CheckedPtr.uniquePtr p →
        p = (malloc A h size).1) ∧
    (checkedSafeMalloc A size h).2 = (malloc A h size).2 := by
  by_cases h0 : (malloc A h size).1 = 0
  · simp [checkedSafeMalloc, h0]
  · simp [checkedSafeMalloc, h0, eq_comm]

/-- C1 at concrete inputs: on the empty heap a refusing allocator gives the
`Error` variant and an allocator choosing address 7 gives a result owning 7. -/
theorem checkedSafeMalloc_returns_variant_witness :
    (((∃ e, (checkedSafeMalloc (fun _ _ => none) 20 ([] : Heap Int)).1 =
          CheckedPtr.error e) ↔
        (malloc (fun _ _ => none) ([] : Heap Int) 20).1 = 0) ∧
      (malloc (fun _ _ => none) ([] : Heap Int) 20).1 = 0) ∧
    ((checkedSafeMalloc (fun _ _ => some 7) 20 ([] : Heap Int)).1 =
        CheckedPtr.uniquePtr 7 ∧
      7 = (malloc (fun _ _ => some 7) ([] : Heap Int) 20).1) :=
  ⟨⟨(checkedSafeMalloc_returns_variant (fun _ _ => none) 20 ([] : Heap Int)).1, rfl⟩,
    rfl,
    (checkedSafeMalloc_returns_variant (fun _ _ => some 7) 20 ([] : Heap Int)).2.2.1 7 rfl⟩

/-- C2 as stated fails: with an allocator that has no memory, the `Error`
returned for a request of 20 bytes is the empty string, so no non-empty message
is carried. -/
theorem checkedSafeMalloc_failure_message_empty :
    (malloc (fun _ _ => none) ([] : Heap Int) 20).1 = 0 ∧
    (checkedSafeMalloc (fun _ _ => none) 20 ([] : Heap Int)).1 = CheckedPtr.error "" ∧
    ¬ ∃ e, (checkedSafeMalloc (fun _ _ => none) 20 ([] : Heap Int)).1 =
        CheckedPtr.error e ∧ e ≠ "" := by
  refine ⟨rfl, rfl, ?_⟩
  rintro ⟨e, he, hne⟩
  have h1 : (checkedSafeMalloc (fun _ _ => none) 20 ([] : Heap Int)).1 =
      CheckedPtr.error "" := rfl
  rw [h1] at he
  injection he with he
  exact hne he.symm

/-- C2 amended: for every size, when `malloc` returns null the result is the
`Error` variant holding the default-constructed (empty) string, and that is the
only message an `Error` result of `checkedSafeMalloc` ever carries. -/
theorem checkedSafeMalloc_failure_carries_default_error {α : Type} (A : Allocator α)
    (size : Nat) (h : Heap α) (h0 : (malloc A h size).1 = 0) :
    (checkedSafeMalloc A size h).1 = CheckedPtr.error "" ∧
    ∀ e, (checkedSafeMalloc A size h).1 = CheckedPtr.error e → e.length = 0 := by
  have h1 : (checkedSafeMalloc A size h).1 = CheckedPtr.error "" := by
    simp [checkedSafeMalloc, h0]
  refine ⟨h1, ?_⟩
  intro e he
  rw [h1] at he
  injection he with he
  subst he
  rfl

/-- C2 amended, at a refusing allocator on the empty heap. -/
theorem checkedSafeMalloc_failure_carries_default_error_witness :
    (malloc (fun _ _ => none) ([] : Heap Int) 20).1 = 0 ∧
    (checkedSafeMalloc (fun _ _ => none) 20 ([] : Heap Int)).1 = CheckedPtr.error "" :=
  ⟨rfl,
    (checkedSafeMalloc_failure_carries_default_error (fun _ _ => none) 20
      ([] : Heap Int) rfl).1⟩

/-! ## Dispatch -/

/-- C3: dispatching over a result that holds the `unique_ptr` variant calls the
handler `f` exactly once, on the pointer the result owns, and never enters the
`Error` overload.  The outcome of the dispatch is fixed by that one call: when
`f` applied to the owned pointer and the incoming world leaves pointer `j` and
world `w1`, and `*j` is readable there, the dispatch completes owning `j`, with
the heap `f` left and the output `f` left followed by only the "validly
allocated" line (no "woops!" line); when the call of `f` or the read after it is
undefined, so is the dispatch; and a completed dispatch always arises this way. -/
theorem apply_visitor_success_calls_handler_once {α : Type} (T : CType α)
    (f : Handler α) (p : Ptr) (w : World α) :
    (apply_visitor T f (CheckedPtr.uniquePtr p) w).events = [Event.handler p] ∧
    (apply_visitor T f (CheckedPtr.uniquePtr p) w).events.count (Event.handler p) = 1 ∧
    (∀ e, Event.failure e ∉ (apply_visitor T f (CheckedPtr.uniquePtr p) w).events) ∧
    (∀ c w2, (apply_visitor T f (CheckedPtr.uniquePtr p) w).result = some (c, w2) →
      ∃ j w1 v, f p w = some (j, w1) ∧ Heap.load T w1.heap j = some v ∧
        c = CheckedPtr.uniquePtr j ∧ w2.heap = w1.heap ∧
        w2.out = w1.out ++ "validly allocated" ++ T.print v ++ "\n") ∧
    (∀ j w1 v, f p w = some (j, w1) → Heap.load T w1.heap j = some v →
      (apply_visitor T f (CheckedPtr.uniquePtr p) w).result =
        some (CheckedPtr.uniquePtr j,
          ⟨w1.heap, w1.out ++ "validly allocated" ++ T.print v ++ "\n"⟩)) ∧
    (f p w = none → (apply_visitor T f (CheckedPtr.uniquePtr p) w).result = none) ∧
    (∀ j w1, f p w = some (j, w1) → Heap.load T w1.heap j = none →
      (apply_visitor T f (CheckedPtr.uniquePtr p) w).result = none) := by
  refine ⟨rfl, by simp [apply_visitor, PtrVisitor.callUniquePtr], ?_, ?_, ?_, ?_, ?_⟩
  · intro e
    simp [apply_visitor, PtrVisitor.callUniquePtr]
  · intro c w2 hr
    simp only [apply_visitor, PtrVisitor.callUniquePtr] at hr
    cases hf : f p w with
    | none => simp [hf] at hr
    | some jw =>
      obtain ⟨j, w1⟩ := jw
      cases hl : Heap.load T w1.heap j with
      | none => simp [hf, hl] at hr
      | some v =>
        simp only [hf, hl, Option.some.injEq, Prod.mk.injEq] at hr
        obtain ⟨hc, hw⟩ := hr
        subst hc hw
        exact ⟨j, w1, v, rfl, hl, rfl, rfl, rfl⟩
  · intro j w1 v hf hl
    simp [apply_visitor, PtrVisitor.callUniquePtr, hf, hl]
  · intro hf
    simp [apply_visitor, PtrVisitor.callUniquePtr, hf]
  · intro j w1 hf hl
    simp [apply_visitor, PtrVisitor.callUniquePtr, hf, hl]

/-- C3 at concrete dispatches.  `main`'s dispatch after a successful allocation
at address 1 calls the handler on 1 and completes with 5 stored and printed.  A
handler that adds 1 to the stored `int` and prints "h", dispatched over a block
holding 4 after earlier output, leaves 5 (one call, not two) and the output
"earlier", "h", "validly allocated5".  A handler whose store is undefined (null
owner) makes the dispatch undefined. -/
theorem apply_visitor_success_calls_handler_once_witness :
    ((apply_visitor cInt (assign cInt 5) (CheckedPtr.uniquePtr 1)
        ⟨[(1, ⟨20, none⟩)], ""⟩).events = [Event.handler 1] ∧
      (apply_visitor cInt (assign cInt 5) (CheckedPtr.uniquePtr 1)
        ⟨[(1, ⟨20, none⟩)], ""⟩).result =
      some (CheckedPtr.uniquePtr 1, ⟨[(1, ⟨20, some 5⟩)], "validly allocated5\n"⟩)) ∧
    (apply_visitor cInt (assign cInt 5) (CheckedPtr.uniquePtr 1)
        ⟨[(1, ⟨20, none⟩)], "earlier\n"⟩).result =
      some (CheckedPtr.uniquePtr 1,
        ⟨[(1, ⟨20, some 5⟩)], "earlier\n" ++ "validly allocated" ++ cInt.print 5 ++ "\n"⟩) ∧
    (apply_visitor cInt
        (fun uniq_p w =>
          match Heap.load cInt w.heap uniq_p with
          | none => none
          | some v => some (uniq_p, ⟨Heap.write w.heap uniq_p (v + 1), w.out ++ "h"⟩))
        (CheckedPtr.uniquePtr 1) ⟨[(1, ⟨20, some 4⟩)], "earlier\n"⟩).result =
      some (CheckedPtr.uniquePtr 1,
        ⟨[(1, ⟨20, some 5⟩)],
          "earlier\n" ++ "h" ++ "validly allocated" ++ cInt.print 5 ++ "\n"⟩) ∧
    (apply_visitor cInt (assign cInt 5) (CheckedPtr.uniquePtr 0)
        ⟨[(1, ⟨20, none⟩)], ""⟩).result = none :=
  ⟨⟨(apply_visitor_success_calls_handler_once cInt (assign cInt 5) 1
      ⟨[(1, ⟨20, none⟩)], ""⟩).1, rfl⟩,
    (apply_visitor_success_calls_handler_once cInt (assign cInt 5) 1
      ⟨[(1, ⟨20, none⟩)], "earlier\n"⟩).2.2.2.2.1 1
      ⟨[(1, ⟨20, some 5⟩)], "earlier\n"⟩ 5 rfl rfl,
    (apply_visitor_success_calls_handler_once cInt
      (fun uniq_p w =>
        match Heap.load cInt w.heap uniq_p with
        | none => none
        | some v => some (uniq_p, ⟨Heap.write w.heap uniq_p (v + 1), w.out ++ "h"⟩))
      1 ⟨[(1, ⟨20, some 4⟩)], "earlier\n"⟩).2.2.2.2.1 1
      ⟨[(1, ⟨20, some 5⟩)], "earlier\n" ++ "h"⟩ 5 rfl rfl,
    (apply_visitor_success_calls_handler_once cInt (assign cInt 5) 0
      ⟨[(1, ⟨20, none⟩)], ""⟩).2.2.2.2.2.1 rfl⟩

/-- C4: dispatching over a result that holds the `Error` variant enters the
`Error` overload exactly once, with the message the result carries, never calls
the handler `f`, and leaves the result and the heap as they were, with the
"woops!" line added to the output. -/
theorem apply_visitor_failure_runs_error_branch_once {α : Type} (T : CType α)
    (f : Handler α) (err : Error) (w : World α) :
    (apply_visitor T f (CheckedPtr.error err) w).events = [Event.failure err] ∧
    (apply_visitor T f (CheckedPtr.error err) w).events.count (Event.failure err) = 1 ∧
    (∀ p, Event.handler p ∉ (apply_visitor T f (CheckedPtr.error err) w).events) ∧
    (apply_visitor T f (CheckedPtr.error err) w).result =
      some (CheckedPtr.error err,
        ⟨w.heap, w.out ++ "woops! Now handling error appropriately" ++ "\n"⟩) := by
  refine ⟨rfl, by simp [apply_visitor, PtrVisitor.callError], ?_, rfl⟩
  intro p
  simp [apply_visitor, PtrVisitor.callError]

/-- C5 as stated fails: with an allocator that has no memory the result is not
`Error("alloc failed")`, and the `Error` overload is not entered with the
message "alloc failed". -/
theorem alloc_failed_message_not_produced :
    (malloc (fun _ _ => none) ([] : Heap Int) 20).1 = 0 ∧
    (checkedSafeMalloc (fun _ _ => none) 20 ([] : Heap Int)).1 ≠
      CheckedPtr.error "alloc failed" ∧
    (main (fun _ _ => none) ⟨[], ""⟩).events ≠ [Event.failure "alloc failed"] ∧
    (main (fun _ _ => none) ⟨[], ""⟩).events = [Event.failure ""] := by
  decide

/-- C5 amended: when `malloc` returns null, `checkedSafeMalloc` returns the
`Error` variant with the empty string, and a dispatch over that result enters
the `Error` overload once, with the empty string. -/
theorem alloc_failure_dispatches_empty_error {α : Type} (T : CType α) (A : Allocator α)
    (size : Nat) (h : Heap α) (f : Handler α) (w : World α)
    (h0 : (malloc A h size).1 = 0) :
    (checkedSafeMalloc A size h).1 = CheckedPtr.error "" ∧
    (apply_visitor T f (checkedSafeMalloc A size h).1 w).events = [Event.failure ""] := by
  have h1 : (checkedSafeMalloc A size h).1 = CheckedPtr.error "" := by
    simp [checkedSafeMalloc, h0]
  rw [h1]
  exact ⟨rfl, rfl⟩

/-- C5 amended, at `main` run with an allocator that has no memory. -/
theorem alloc_failure_dispatches_empty_error_witness :
    (malloc (fun _ _ => none) ([] : Heap Int) 20).1 = 0 ∧
    (main (fun _ _ => none) ⟨[], ""⟩).events = [Event.failure ""] :=
  ⟨rfl,
    (alloc_failure_dispatches_empty_error cInt (fun _ _ => none) 20 ([] : Heap Int)
      (assign cInt 5) ⟨[], ""⟩ rfl).2⟩

/-! ## Mutation through the handler -/

/-- C6: when the handler stores `v` through the owned pointer (a non-null
pointer to a live block with room for a `T`), the dispatch completes, the result
still owns that pointer, a read through it after the dispatch gives `v`, and the
line the dispatch printed after the handler is "validly allocated" followed by
`v`.  For `main`: whenever its allocation succeeds, the handler stores 5, the
dispatch prints "validly allocated5" and the read after the dispatch gives 5. -/
theorem assign_visible_after_dispatch :
    (∀ (α : Type) (T : CType α) (p : Ptr) (w : World α) (v : α) (b : Block α),
      p ≠ 0 → Heap.block w.heap p = some b → T.sizeof ≤ b.size →
      ∃ w2, (apply_visitor T (assign T v) (CheckedPtr.uniquePtr p) w).result =
          some (CheckedPtr.uniquePtr p, w2) ∧
        Heap.load T w2.heap p = some v ∧
        w2.out = w.out ++ "validly allocated" ++ T.print v ++ "\n") ∧
    (∀ (A : Allocator Int) (w : World Int), (malloc A w.heap 20).1 ≠ 0 →
      ∃ w2, (main A w).result =
          some (CheckedPtr.uniquePtr (malloc A w.heap 20).1, w2) ∧
        Heap.load cInt w2.heap (malloc A w.heap 20).1 = some 5 ∧
        w2.out = w.out ++ "validly allocated" ++ "5" ++ "\n") := by
  have key : ∀ (α : Type) (T : CType α) (p : Ptr) (w : World α) (v : α) (b : Block α),
      p ≠ 0 → Heap.block w.heap p = some b → T.sizeof ≤ b.size →
      ∃ w2, (apply_visitor T (assign T v) (CheckedPtr.uniquePtr p) w).result =
          some (CheckedPtr.uniquePtr p, w2) ∧
        Heap.load T w2.heap p = some v ∧
        w2.out = w.out ++ "validly allocated" ++ T.print v ++ "\n" := by
    intro α T p w v b hp hb hs
    have hst : Heap.store T w.heap p v = some (Heap.write w.heap p v) := by
      simp [Heap.store, hp, hb, hs]
    have hld : Heap.load T (Heap.write w.heap p v) p = some v :=
      Heap.load_store T w.heap _ p v hst
    refine ⟨⟨Heap.write w.heap p v,
      w.out ++ "validly allocated" ++ T.print v ++ "\n"⟩, ?_, hld, rfl⟩
    simp [apply_visitor, PtrVisitor.callUniquePtr, assign, hst, hld]
  refine ⟨key, ?_⟩
  intro A w hne
  rcases checkedSafeMalloc_cases A 20 w.heap with ⟨h0, _⟩ | ⟨_, _, _, hc⟩
  · exact absurd h0 hne
  · have hp : (malloc A w.heap 20).1 ≠ 0 := hne
    obtain ⟨w2, hr, hl, ho⟩ := key Int cInt (malloc A w.heap 20).1
      ⟨((malloc A w.heap 20).1, ⟨20, none⟩) :: w.heap, w.out⟩ 5 ⟨20, none⟩ hp
      (by simp [Heap.block]) (by decide)
    refine ⟨w2, ?_, hl, ho⟩
    simp only [main, hc]
    exact hr

/-- C6 at `main` started on the empty heap with an allocator that chooses
address 1: the hypotheses hold, the dispatch leaves 5 in the block the result
owns and prints "validly allocated5". -/
theorem assign_visible_after_dispatch_witness :
    ((1 : Ptr) ≠ 0 ∧
      Heap.block ([(1, ⟨20, none⟩)] : Heap Int) 1 = some ⟨20, none⟩ ∧
      cInt.sizeof ≤ 20 ∧
      (malloc (fun _ _ => some 1) ([] : Heap Int) 20).1 ≠ 0) ∧
    (∃ w2, (apply_visitor cInt (assign cInt 5) (CheckedPtr.uniquePtr 1)
          ⟨[(1, ⟨20, none⟩)], ""⟩).result = some (CheckedPtr.uniquePtr 1, w2) ∧
        Heap.load cInt w2.heap 1 = some 5 ∧
        w2.out = "" ++ "validly allocated" ++ cInt.print 5 ++ "\n") ∧
    (∃ w2, (main (fun _ _ => some 1) ⟨[], ""⟩).result =
          some (CheckedPtr.uniquePtr 1, w2) ∧
        Heap.load cInt w2.heap 1 = some 5 ∧
        w2.out = "" ++ "validly allocated" ++ "5" ++ "\n") ∧
    (main (fun _ _ => some 1) ⟨[], ""⟩).result =
      some (CheckedPtr.uniquePtr 1, ⟨[(1, ⟨20, some 5⟩)], "validly allocated5\n"⟩) :=
  ⟨by decide,
    assign_visible_after_dispatch.1 Int cInt 1 ⟨[(1, ⟨20, none⟩)], ""⟩ 5 ⟨20, none⟩
      (by decide) rfl (by decide),
    assign_visible_after_dispatch.2 (fun _ _ => some 1) ⟨[], ""⟩ (by decide),
    rfl⟩

/-! ## Size of the allocation -/

/-- C7 as stated fails: for `T = int` and a request of 1, the allocator is asked
for 1 byte, the result owns a block of 1 byte, which is less than
`1 * sizeof(int)`, and a store of an `int` through the owned pointer is not
defined. -/
theorem checkedSafeMalloc_size_is_bytes :
    checkedSafeMalloc (fun _ n => if n = 1 then some 1 else none) 1 ([] : Heap Int) =
      (CheckedPtr.uniquePtr 1, [(1, ⟨1, none⟩)]) ∧
    ¬ (1 * cInt.sizeof ≤ 1) ∧
    Heap.store cInt [(1, ⟨1, none⟩)] 1 5 = none ∧
    (apply_visitor cInt (assign cInt 5) (CheckedPtr.uniquePtr 1)
      ⟨[(1, ⟨1, none⟩)], ""⟩).result = none := by
  decide

/-- C7 amended: `size` is a byte count.  A `unique_ptr` result of
`checkedSafeMalloc<T>(size)` comes from asking the allocator for exactly `size`
bytes, whatever `sizeof(T)` is; it owns an uninitialised block of exactly `size`
bytes, and a `T` can be stored through it exactly when `sizeof(T) ≤ size`. -/
theorem checkedSafeMalloc_block_has_size_bytes {α : Type} (T : CType α)
    (A : Allocator α) (size : Nat) (h h1 : Heap α) (p : Ptr) (v : α)
    (hr : checkedSafeMalloc A size h = (CheckedPtr.uniquePtr p, h1)) :
    A h size = some p ∧ Heap.block h1 p = some ⟨size, none⟩ ∧
    ((Heap.store T h1 p v).isSome ↔ T.sizeof ≤ size) := by
  rcases checkedSafeMalloc_cases A size h with ⟨_, hc⟩ | ⟨h0, hA, _, hc⟩
  · rw [hc] at hr
    simp at hr
  · rw [hc] at hr
    simp only [Prod.mk.injEq, CheckedPtr.uniquePtr.injEq] at hr
    obtain ⟨hp, hh⟩ := hr
    rw [hp] at h0 hA
    subst hh
    rw [hp]
    have hb : Heap.block ((p, (⟨size, none⟩ : Block α)) :: h) p = some ⟨size, none⟩ := by
      simp [Heap.block]
    refine ⟨hA, hb, ?_⟩
    rw [Heap.store_isSome, hb]
    constructor
    · rintro ⟨_, b, hb1, hs⟩
      cases hb1
      exact hs
    · intro hs
      exact ⟨h0, _, rfl, hs⟩

/-- C7 amended, for `main`'s request of 20 bytes for an `int`. -/
theorem checkedSafeMalloc_block_has_size_bytes_witness :
    checkedSafeMalloc (fun _ _ => some 1) 20 ([] : Heap Int) =
      (CheckedPtr.uniquePtr 1, [(1, ⟨20, none⟩)]) ∧
    Heap.block ([(1, ⟨20, none⟩)] : Heap Int) 1 = some ⟨20, none⟩ ∧
    ((Heap.store cInt ([(1, ⟨20, none⟩)] : Heap Int) 1 5).isSome ↔ cInt.sizeof ≤ 20) :=
  ⟨rfl,
    (checkedSafeMalloc_block_has_size_bytes cInt (fun _ _ => some 1) 20 []
      [(1, ⟨20, none⟩)] 1 5 rfl).2⟩

/-! ## Effect on the heap -/

/-- C8: a call that returns the `Error` variant leaves the heap exactly as it
was (no allocation); a call that returns the `unique_ptr` variant leaves the old
heap with exactly one new block in front of it, at the owned non-null address,
which was not live before. -/
theorem checkedSafeMalloc_frame {α : Type} (A : Allocator α) (size : Nat) (h : Heap α) :
    (∀ e, (checkedSafeMalloc A size h).1 = CheckedPtr.error e →
      (checkedSafeMalloc A size h).2 = h) ∧
    (∀ p, (checkedSafeMalloc A size h).1 = CheckedPtr.uniquePtr p →
      p ≠ 0 ∧ Heap.block h p = none ∧
      (checkedSafeMalloc A size h).2 = (p, ⟨size, none⟩) :: h ∧
      (checkedSafeMalloc A size h).2.length = h.length + 1) := by
  rcases checkedSafeMalloc_cases A size h with ⟨_, hc⟩ | ⟨h0, _, hb, hc⟩
  · rw [hc]
    simp
  · rw [hc]
    refine ⟨by simp, ?_⟩
    intro p hp
    simp only [CheckedPtr.uniquePtr.injEq] at hp
    subst hp
    exact ⟨h0, hb, rfl, by simp⟩

/-- C8 at a heap holding one block: a refused request leaves it, a granted one
adds one block. -/
theorem checkedSafeMalloc_frame_witness :
    (checkedSafeMalloc (fun _ _ => none) 20 ([(3, ⟨8, some 1⟩)] : Heap Int)).2 =
      [(3, ⟨8, some 1⟩)] ∧
    (checkedSafeMalloc (fun _ _ => some 1) 20 ([(3, ⟨8, some 1⟩)] : Heap Int)).2 =
      [(1, ⟨20, none⟩), (3, ⟨8, some 1⟩)] :=
  ⟨(checkedSafeMalloc_frame (fun _ _ => none) 20 ([(3, ⟨8, some 1⟩)] : Heap Int)).1 ""
      rfl,
    ((checkedSafeMalloc_frame (fun _ _ => some 1) 20
      ([(3, ⟨8, some 1⟩)] : Heap Int)).2 1 rfl).2.2.1⟩

/-! ## Requests of size 0 and the dereference after the handler -/

/-- C9 as stated fails: when the allocator answers a request of 0 bytes with the
non-null address 1, `checkedSafeMalloc<int>(0)` is not rejected (it returns the
`unique_ptr` variant owning a block of 0 bytes), and the dispatch over it is not
defined, neither with `main`'s handler nor with a handler that does nothing. -/
theorem zero_size_success_not_dispatchable :
    checkedSafeMalloc (fun _ _ => some 1) 0 ([] : Heap Int) =
      (CheckedPtr.uniquePtr 1, [(1, ⟨0, none⟩)]) ∧
    (apply_visitor cInt (assign cInt 5)
      (checkedSafeMalloc (fun _ _ => some 1) 0 ([] : Heap Int)).1
      ⟨(checkedSafeMalloc (fun _ _ => some 1) 0 ([] : Heap Int)).2, ""⟩).result = none ∧
    (apply_visitor cInt (fun uniq_p w => some (uniq_p, w))
      (checkedSafeMalloc (fun _ _ => some 1) 0 ([] : Heap Int)).1
      ⟨(checkedSafeMalloc (fun _ _ => some 1) 0 ([] : Heap Int)).2, ""⟩).result = none ∧
    Heap.load cInt (checkedSafeMalloc (fun _ _ => some 1) 0 ([] : Heap Int)).2 1 = none := by
  decide

/-- C9 amended: a request of size 0 is rejected with the `Error` variant exactly
when `malloc` returns null; otherwise the result is the `unique_ptr` variant
owning a new non-null block of 0 bytes.  A dispatch over that result calls the
handler once, but whenever the handler leaves the owned pointer on a block of 0
bytes, the dispatch's own read of a `T` (`sizeof(T) > 0`) is not defined. -/
theorem zero_size_outcome {α : Type} (T : CType α) (A : Allocator α) (h : Heap α)
    (hT : 0 < T.sizeof) :
    ((malloc A h 0).1 = 0 ∧ checkedSafeMalloc A 0 h = (CheckedPtr.error "", h)) ∨
    (∃ p, p ≠ 0 ∧ (malloc A h 0).1 = p ∧
      checkedSafeMalloc A 0 h = (CheckedPtr.uniquePtr p, (p, ⟨0, none⟩) :: h) ∧
      ∀ (f : Handler α) (w w1 : World α) (b : Block α),
        f p w = some (p, w1) → Heap.block w1.heap p = some b → b.size = 0 →
        (apply_visitor T f (CheckedPtr.uniquePtr p) w).events = [Event.handler p] ∧
        (apply_visitor T f (CheckedPtr.uniquePtr p) w).result = none) := by
  rcases checkedSafeMalloc_cases A 0 h with ⟨h0, hc⟩ | ⟨h0, _, _, hc⟩
  · exact Or.inl ⟨h0, hc⟩
  · right
    refine ⟨(malloc A h 0).1, h0, rfl, hc, ?_⟩
    intro f w w1 b hf hb hsz
    refine ⟨rfl, ?_⟩
    have hlt : ¬ T.sizeof ≤ b.size := by omega
    simp [apply_visitor, PtrVisitor.callUniquePtr, hf, Heap.load, h0, hb, hlt]

/-- C9 amended, at the two allocator answers on the empty heap for `int`: a
refusal gives the `Error` variant, the answer 1 gives a result on which the
dispatch with a handler that does nothing is not defined. -/
theorem zero_size_outcome_witness :
    0 < cInt.sizeof ∧
    (((malloc (fun _ _ => none) ([] : Heap Int) 0).1 = 0 ∧
        checkedSafeMalloc (fun _ _ => none) 0 ([] : Heap Int) = (CheckedPtr.error "", [])) ∨
      (∃ p, p ≠ 0 ∧ (malloc (fun _ _ => none) ([] : Heap Int) 0).1 = p ∧
        checkedSafeMalloc (fun _ _ => none) 0 ([] : Heap Int) =
          (CheckedPtr.uniquePtr p, [(p, ⟨0, none⟩)]) ∧
        ∀ (f : Handler Int) (w w1 : World Int) (b : Block Int),
          f p w = some (p, w1) → Heap.block w1.heap p = some b → b.size = 0 →
          (apply_visitor cInt f (CheckedPtr.uniquePtr p) w).events = [Event.handler p] ∧
          (apply_visitor cInt f (CheckedPtr.uniquePtr p) w).result = none)) ∧
    (((malloc (fun _ _ => some 1) ([] : Heap Int) 0).1 = 0 ∧
        checkedSafeMalloc (fun _ _ => some 1) 0 ([] : Heap Int) =
          (CheckedPtr.error "", [])) ∨
      (∃ p, p ≠ 0 ∧ (malloc (fun _ _ => some 1) ([] : Heap Int) 0).1 = p ∧
        checkedSafeMalloc (fun _ _ => some 1) 0 ([] : Heap Int) =
          (CheckedPtr.uniquePtr p, [(p, ⟨0, none⟩)]) ∧
        ∀ (f : Handler Int) (w w1 : World Int) (b : Block Int),
          f p w = some (p, w1) → Heap.block w1.heap p = some b → b.size = 0 →
          (apply_visitor cInt f (CheckedPtr.uniquePtr p) w).events = [Event.handler p] ∧
          (apply_visitor cInt f (CheckedPtr.uniquePtr p) w).result = none)) :=
  ⟨by decide,
    zero_size_outcome cInt (fun _ _ => none) [] (by decide),
    zero_size_outcome cInt (fun _ _ => some 1) [] (by decide)⟩

/-- C10 as stated fails: a handler can leave the owned pointer non-null and the
dereference after it is still not defined.  After `checkedSafeMalloc<int>(2)` a
handler that does nothing leaves a pointer to 2 bytes; after
`checkedSafeMalloc<int>(20)` a handler that does nothing leaves a pointer to
uninitialised storage; a handler that releases the block back to the allocator
and keeps the address leaves a dangling pointer. -/
theorem nonnull_pointer_deref_not_defined :
    (checkedSafeMalloc (fun _ _ => some 1) 2 ([] : Heap Int) =
        (CheckedPtr.uniquePtr 1, [(1, ⟨2, none⟩)]) ∧
      (1 : Ptr) ≠ 0 ∧
      (apply_visitor cInt (fun uniq_p w => some (uniq_p, w)) (CheckedPtr.uniquePtr 1)
        ⟨[(1, ⟨2, none⟩)], ""⟩).result = none) ∧
    (checkedSafeMalloc (fun _ _ => some 1) 20 ([] : Heap Int) =
        (CheckedPtr.uniquePtr 1, [(1, ⟨20, none⟩)]) ∧
      (apply_visitor cInt (fun uniq_p w => some (uniq_p, w)) (CheckedPtr.uniquePtr 1)
        ⟨[(1, ⟨20, none⟩)], ""⟩).result = none) ∧
    (apply_visitor cInt
      (fun uniq_p w => some (uniq_p, ⟨w.heap.filter (fun x => x.1 != uniq_p), w.out⟩))
      (CheckedPtr.uniquePtr 1) ⟨[(1, ⟨20, some 5⟩)], ""⟩).result = none := by
  decide

/-- C10 amended: a `unique_ptr` result of `checkedSafeMalloc` never owns the null
pointer.  For every handler that leaves the owned pointer non-null and
addressing a live, initialised block of at least `sizeof(T)` bytes, the
dereference after the handler is defined and the dispatch completes, printing
the value read.  For the handler that sets the owned pointer to null (and does
nothing else), the dereference is of the null pointer and is not defined. -/
theorem success_pointer_deref :
    (∀ (α : Type) (A : Allocator α) (size : Nat) (h : Heap α) (p : Ptr),
      (checkedSafeMalloc A size h).1 = CheckedPtr.uniquePtr p → p ≠ 0) ∧
    (∀ (α : Type) (T : CType α) (f : Handler α) (p j : Ptr) (w w1 : World α)
        (b : Block α) (v : α),
      f p w = some (j, w1) → j ≠ 0 → Heap.block w1.heap j = some b →
      T.sizeof ≤ b.size → b.val = some v →
      Heap.load T w1.heap j = some v ∧
      (apply_visitor T f (CheckedPtr.uniquePtr p) w).result =
        some (CheckedPtr.uniquePtr j,
          ⟨w1.heap, w1.out ++ "validly allocated" ++ T.print v ++ "\n"⟩)) ∧
    (∀ (α : Type) (T : CType α) (p : Ptr) (w : World α),
      (fun (_ : Ptr) (w0 : World α) => some ((0 : Ptr), w0)) p w = some (0, w) ∧
      Heap.load T w.heap 0 = none ∧
      (apply_visitor T (fun _ w0 => some (0, w0)) (CheckedPtr.uniquePtr p) w).result =
        none) := by
  refine ⟨?_, ?_, ?_⟩
  · intro α A size h p hp
    rcases checkedSafeMalloc_cases A size h with ⟨_, hc⟩ | ⟨h0, _, _, hc⟩
    · rw [hc] at hp
      simp at hp
    · rw [hc] at hp
      simp only [CheckedPtr.uniquePtr.injEq] at hp
      exact hp ▸ h0
  · intro α T f p j w w1 b v hf hj hb hs hv
    have hl : Heap.load T w1.heap j = some v := by
      simp [Heap.load, hj, hb, hs, hv]
    refine ⟨hl, ?_⟩
    simp [apply_visitor, PtrVisitor.callUniquePtr, hf, hl]
  · intro α T p w
    refine ⟨rfl, by simp [Heap.load], ?_⟩
    simp [apply_visitor, PtrVisitor.callUniquePtr, Heap.load]

/-- C10 amended, at `main`: the allocation at address 1 is not null, `main`'s
handler leaves a live initialised block of 20 bytes there and the dereference
reads 5; the handler that nulls the pointer makes the dispatch undefined. -/
theorem success_pointer_deref_witness :
    ((checkedSafeMalloc (fun _ _ => some 1) 20 ([] : Heap Int)).1 =
        CheckedPtr.uniquePtr 1 ∧ (1 : Ptr) ≠ 0) ∧
    (assign cInt 5 1 ⟨[(1, ⟨20, none⟩)], ""⟩ = some (1, ⟨[(1, ⟨20, some 5⟩)], ""⟩) ∧
      cInt.sizeof ≤ 20 ∧
      Heap.load cInt [(1, ⟨20, some 5⟩)] 1 = some 5 ∧
      (apply_visitor cInt (assign cInt 5) (CheckedPtr.uniquePtr 1)
        ⟨[(1, ⟨20, none⟩)], ""⟩).result =
        some (CheckedPtr.uniquePtr 1,
          ⟨[(1, ⟨20, some 5⟩)], "" ++ "validly allocated" ++ cInt.print 5 ++ "\n"⟩)) ∧
    (apply_visitor cInt (fun _ w0 => some (0, w0)) (CheckedPtr.uniquePtr 1)
      ⟨[(1, ⟨20, some 5⟩)], ""⟩).result = none :=
  ⟨⟨rfl, success_pointer_deref.1 Int (fun _ _ => some 1) 20 [] 1 rfl⟩,
    ⟨rfl, by decide,
      success_pointer_deref.2.1 Int cInt (assign cInt 5) 1 1 ⟨[(1, ⟨20, none⟩)], ""⟩
        ⟨[(1, ⟨20, some 5⟩)], ""⟩ ⟨20, some 5⟩ 5 rfl (by decide) rfl (by decide) rfl⟩,
    (success_pointer_deref.2.2 Int cInt 1 ⟨[(1, ⟨20, some 5⟩)], ""⟩).2.2⟩

end VariantDemo
